import Mathlib

/-!
Verification of the RISIB recycling-rewards backend (src/backend/server.py).

The backend is modelled as pure Lean functions over an explicit database
state.  Python ints are `Int`, Python floats (only `recycledKg` and the
`kgRecycled` response field, which the code manipulates with exact decimal
literals) are `ℚ`, `datetime.utcnow()` values are `Nat` timestamps passed
in as parameters, Mongo ObjectIds are `Nat` keys, and `random.randint` is
modelled by a function of an arbitrary draw `r : Nat` whose image is
exactly the requested interval.  Collections are association lists keyed
by id; `update_one` updates the first matching document.
-/

namespace RISIB

/-- Tier ladder, in ascending order, as in `cat_order` of the source. -/
def cat_order : List String := ["Clásico", "Plata", "Oro", "Diamante", "Black"]

/-- Embedding of `get_category_from_points` (server.py lines 122-132). -/
def get_category_from_points (points : Int) : String :=
  if points ≥ 1000 then "Black"
  else if points ≥ 600 then "Diamante"
  else if points ≥ 300 then "Oro"
  else if points ≥ 100 then "Plata"
  else "Clásico"

/-- Return record of `get_next_category_info`. -/
structure NextCategoryInfo where
  name : String
  pointsNeeded : Int
  currentPoints : Int
  totalPoints : Int
  progress : ℚ
deriving Repr, DecidableEq

/-- Threshold table of `get_next_category_info` (server.py lines 135-140). -/
def thresholds : List (Int × String) :=
  [(100, "Plata"), (300, "Oro"), (600, "Diamante"), (1000, "Black")]

/-- Embedding of `get_next_category_info` (server.py lines 134-152): the
for-loop with early return is the first threshold strictly above `points`. -/
def get_next_category_info (points : Int) : Option NextCategoryInfo :=
  (thresholds.find? (fun tc => decide (points < tc.1))).map (fun tc =>
    { name := tc.2
      pointsNeeded := tc.1 - points
      currentPoints := points
      totalPoints := tc.1
      progress := ((points : ℚ) / (tc.1 : ℚ)) * 100 })

/-- Position of a category in the tier ladder (used for monotonicity). -/
def tier_index (c : String) : Nat := cat_order.indexOf c

/-- Spec-side definition, following the words of the spec only: the full
ladder with its thresholds in ascending order, used to state which tier
`get_category_from_points` must return. -/
def ladder : List (Int × String) :=
  [(0, "Clásico"), (100, "Plata"), (300, "Oro"), (600, "Diamante"), (1000, "Black")]

/-- Spec-side definition: the highest tier of the ladder whose threshold
is ≤ p, when one exists; compared against `get_category_from_points`. -/
def highest_tier_le (p : Int) : Option String :=
  ((ladder.filter (fun tc => decide (tc.1 ≤ p))).map Prod.snd).getLast?

/-- Entry of a pointsHistory ledger (model of `PointsHistoryItem`). -/
structure PointsHistoryItem where
  date : Nat
  points : Int
  description : String
  type : String
deriving Repr, DecidableEq

/-- Stored user document (model of `User`). -/
structure UserDoc where
  studentId : String
  name : String
  email : String
  password : String
  avatar : String
  points : Int
  category : String
  pointsHistory : List PointsHistoryItem
  recycledKg : ℚ
  createdAt : Nat
deriving Repr, DecidableEq

/-- Stored container document (model of `Container`); the location dict
is a pair of coordinates. -/
structure ContainerDoc where
  name : String
  locx : Int
  locy : Int
  status : String
  address : String
  lastMaintenance : Nat
  type : String
deriving Repr, DecidableEq

/-- Stored reward document (model of `Reward`). -/
structure RewardDoc where
  title : String
  description : String
  pointsCost : Int
  category : String
  available : Bool
  image : String
  location : String
deriving Repr, DecidableEq

/-- Audit scan record (model of `QRScan`). -/
structure QRScanDoc where
  userId : Nat
  containerId : Nat
  pointsEarned : Int
  timestamp : Nat
deriving Repr, DecidableEq

/-- Database state: the four collections, keyed by Nat ids, plus a fresh-id
counter standing in for ObjectId generation. -/
structure DB where
  users : List (Nat × UserDoc)
  containers : List (Nat × ContainerDoc)
  rewards : List (Nat × RewardDoc)
  scans : List QRScanDoc
  nextId : Nat
deriving Repr, DecidableEq

/-- Model of `update_one`: replace the value at the first matching key. -/
def update_assoc {α : Type} : List (Nat × α) → Nat → α → List (Nat × α)
  | [], _, _ => []
  | (k, v) :: t, key, nv =>
    if k = key then (k, nv) :: t else (k, v) :: update_assoc t key nv

/-- User document created by login/register (model of the `User(...)`
constructor call with its class defaults: points 0, category Clásico,
empty history, recycledKg 0). -/
def mkNewUser (studentId nm email password avatar : String) (now : Nat) : UserDoc :=
  { studentId := studentId, name := nm, email := email, password := password,
    avatar := avatar, points := 0, category := "Clásico", pointsHistory := [],
    recycledKg := 0, createdAt := now }

/-- User-document update performed by a successful redeem (server.py lines
325-346): deduct the cost, recompute the category, append one negative
"redeemed" history entry. -/
def redeemUpdate (user : UserDoc) (reward : RewardDoc) (now : Nat) : UserDoc :=
  let new_points := user.points - reward.pointsCost
  { user with
    points := new_points
    category := get_category_from_points new_points
    pointsHistory := user.pointsHistory ++
      [⟨now, -reward.pointsCost, "Canjeado: " ++ reward.title, "redeemed"⟩] }

/-- Success payload of the redeem endpoint. -/
structure RedeemResponse where
  success : Bool
  message : String
  newPoints : Int
  newCategory : String
deriving Repr, DecidableEq

/-- Embedding of the `/rewards/redeem` handler (server.py lines 300-357).
Failures are the raised HTTPExceptions; they happen before any write, so
they return the database unchanged.  The catch-all branch models the
ValueError that `cat_order.index` raises on a category absent from the
ladder, surfaced by the generic exception handler. -/
def redeem_reward (db : DB) (userId rewardId : Nat) (now : Nat) :
    DB × Except String RedeemResponse :=
  match db.users.lookup userId with
  | none => (db, .error "Usuario no encontrado")
  | some user =>
    match db.rewards.lookup rewardId with
    | none => (db, .error "Recompensa no encontrada")
    | some reward =>
      if user.points < reward.pointsCost then (db, .error "Puntos insuficientes")
      else
        match cat_order.indexOf? user.category, cat_order.indexOf? reward.category with
        | some user_cat_idx, some reward_cat_idx =>
          if user_cat_idx < reward_cat_idx then (db, .error "Categoría insuficiente")
          else
            let new_user := redeemUpdate user reward now
            ({ db with users := update_assoc db.users userId new_user },
             .ok { success := true, message := "Recompensa canjeada exitosamente",
                   newPoints := user.points - reward.pointsCost,
                   newCategory := get_category_from_points (user.points - reward.pointsCost) })
        | _, _ => (db, .error "is not in list")

/-- Model of `random.randint lo hi`: an arbitrary draw `r` mapped onto the
inclusive interval, so that the possible outputs are exactly `[lo, hi]`. -/
def randint (lo hi : Int) (r : Nat) : Int :=
  lo + (r : Int) % (hi - lo + 1)

/-- Model of `ObjectId(s)` construction: succeeds exactly on well-formed
identifier strings (here: non-empty all-digit strings), giving the key. -/
def parse_object_id (s : String) : Option Nat :=
  if s.data ≠ [] ∧ s.data.all (fun c => c.isDigit) then
    some (s.data.foldl (fun n c => n * 10 + (c.toNat - 48)) 0)
  else none

/-- Container resolution of the scan handler (server.py lines 368-372):
interpret the QR payload as an ObjectId and look it up; only when the
payload is not a well-formed ObjectId, fall back to a name lookup. -/
def resolve_container (db : DB) (qr : String) : Option (Nat × ContainerDoc) :=
  match parse_object_id qr with
  | some cid => (db.containers.lookup cid).map (fun c => (cid, c))
  | none => db.containers.find? (fun p => p.2.name == qr)

/-- User-document update performed by a successful scan (server.py lines
388-411): add the earned points, recompute the category, add
pointsEarned × 0.1 to recycledKg, append one "earned" history entry. -/
def scanUpdate (user : UserDoc) (containerName : String) (points_earned : Int)
    (now : Nat) : UserDoc :=
  let new_points := user.points + points_earned
  { user with
    points := new_points
    category := get_category_from_points new_points
    recycledKg := user.recycledKg + (points_earned : ℚ) * (0.1 : ℚ)
    pointsHistory := user.pointsHistory ++
      [⟨now, points_earned, "Reciclaje en " ++ containerName, "earned"⟩] }

/-- Success payload of the scan endpoint. -/
structure ScanResponse where
  success : Bool
  pointsEarned : Int
  newPoints : Int
  newCategory : String
  containerName : String
  kgRecycled : ℚ
deriving Repr, DecidableEq

/-- Embedding of the `/scan` handler (server.py lines 361-432): resolve the
container, require operational status, require the user, then award
`randint 10 50` points, update the user document and append one audit scan
record.  `r` is the random draw and `now` the current time. -/
def scan_qr (db : DB) (userId : Nat) (qrCode : String) (r : Nat) (now : Nat) :
    DB × Except String ScanResponse :=
  match resolve_container db qrCode with
  | none => (db, .error "Contenedor no válido")
  | some (cid, container) =>
    if container.status ≠ "operational" then (db, .error "Contenedor en mantenimiento")
    else
      match db.users.lookup userId with
      | none => (db, .error "Usuario no encontrado")
      | some user =>
        let points_earned := randint 10 50 r
        let new_user := scanUpdate user container.name points_earned now
        ({ db with
           users := update_assoc db.users userId new_user
           scans := db.scans ++ [⟨userId, cid, points_earned, now⟩] },
         .ok { success := true, pointsEarned := points_earned,
               newPoints := user.points + points_earned,
               newCategory := get_category_from_points (user.points + points_earned),
               containerName := container.name,
               kgRecycled := (points_earned : ℚ) * (0.1 : ℚ) })

/-- Embedding of the `/rewards` list handler (server.py lines 276-288): an
empty or absent category leaves the query empty; a category in the ladder
filters to rewards at or below that tier; any other value leaves the query
empty as well. -/
def get_rewards (db : DB) (category : Option String) : List (Nat × RewardDoc) :=
  match category with
  | none => db.rewards
  | some c =>
    if c = "" then db.rewards
    else if c ∈ cat_order then
      let idx := cat_order.indexOf c
      let available_cats := cat_order.take (idx + 1)
      db.rewards.filter (fun p => decide (p.2.category ∈ available_cats))
    else db.rewards

/-- Sample containers seeded by `/init-data` (server.py lines 444-480). -/
def containers_data (now : Nat) : List ContainerDoc :=
  [ ⟨"Contenedor A - Biblioteca", 30, 40, "operational",
      "Edificio de Biblioteca, Piso 1", now, "mixed"⟩,
    ⟨"Contenedor B - Cafetería", 60, 30, "operational",
      "Cafetería Central", now, "plastic"⟩,
    ⟨"Contenedor C - Laboratorios", 45, 70, "maintenance",
      "Edificio de Laboratorios, Entrada Principal", now, "paper"⟩,
    ⟨"Contenedor D - Gimnasio", 75, 60, "operational",
      "Centro Deportivo", now, "mixed"⟩,
    ⟨"Contenedor E - Estacionamiento", 20, 20, "operational",
      "Estacionamiento Norte", now, "mixed"⟩ ]

/-- Sample rewards seeded by `/init-data` (server.py lines 486-591). -/
def rewards_data : List RewardDoc :=
  [ ⟨"Café Gratis", "1 café americano o capuchino gratis en la cafetería",
      50, "Clásico", true, "☕", "Cafetín"⟩,
    ⟨"Descuento 10% Librería", "10% de descuento en cualquier producto de la librería",
      80, "Clásico", true, "📚", "Librería"⟩,
    ⟨"Snack Gratis", "Elige un snack gratis en la cafetería",
      30, "Clásico", true, "🍪", "Cafetín"⟩,
    ⟨"Cuaderno Universitario", "Cuaderno de 100 hojas tamaño universitario",
      120, "Plata", true, "📓", "Librería"⟩,
    ⟨"Vale S/10 Cafetería", "Vale por S/10 para usar en la cafetería",
      150, "Plata", true, "🎫", "Cafetín"⟩,
    ⟨"Set de Lapiceros", "Set de 5 lapiceros de colores",
      100, "Plata", true, "🖊️", "Librería"⟩,
    ⟨"Vale S/20 Librería", "Vale por S/20 para usar en la librería",
      300, "Oro", true, "🎁", "Librería"⟩,
    ⟨"Mochila Ecológica", "Mochila de material reciclado con logo RISIB",
      400, "Oro", true, "🎒", "Tienda RISIB"⟩,
    ⟨"Almuerzo Gratis", "Menú completo gratis en la cafetería",
      250, "Oro", true, "🍽️", "Cafetín"⟩,
    ⟨"Vale S/50 Multiuso", "Vale por S/50 para usar en cafetería o librería",
      700, "Diamante", true, "💎", "Multiuso"⟩,
    ⟨"Laptop Cooling Pad", "Base refrigerante para laptop",
      800, "Diamante", true, "💻", "Tienda Tech"⟩,
    ⟨"Vale S/100 Premium", "Vale por S/100 para usar en cualquier establecimiento del campus",
      1200, "Black", true, "🏆", "Premium"⟩,
    ⟨"Tablet Ecológica", "Tablet para tomar notas digitales",
      1500, "Black", true, "📱", "Tienda Tech"⟩ ]

/-- Insert containers one by one, assigning fresh ids (the insert_one loop). -/
def insert_containers (db : DB) (cs : List ContainerDoc) : DB :=
  cs.foldl (fun d c =>
    { d with containers := d.containers ++ [(d.nextId, c)], nextId := d.nextId + 1 }) db

/-- Insert rewards one by one, assigning fresh ids (the insert_one loop). -/
def insert_rewards (db : DB) (rs : List RewardDoc) : DB :=
  rs.foldl (fun d rw =>
    { d with rewards := d.rewards ++ [(d.nextId, rw)], nextId := d.nextId + 1 }) db

/-- Embedding of the `/init-data` handler (server.py lines 436-600): a no-op
when any container document exists, otherwise seed the sample containers
and rewards. -/
def init_data (db : DB) (now : Nat) : DB × String :=
  if db.containers.length > 0 then (db, "Datos ya inicializados")
  else
    let db1 := insert_containers db (containers_data now)
    let db2 := insert_rewards db1 rewards_data
    (db2, "Datos inicializados correctamente")

/-- User documents producible by the endpoints that create users or change
their points: creation by login/register, a successful redeem update, a
successful scan update (with its `randint 10 50` draw).  The guards of
those endpoints are dropped, so this over-approximates the reachable user
documents, which only strengthens a universally quantified invariant. -/
inductive ReachableUser : UserDoc → Prop where
  | created (sid nm em pw av : String) (now : Nat) :
      ReachableUser (mkNewUser sid nm em pw av now)
  | redeemed (u : UserDoc) (reward : RewardDoc) (now : Nat) :
      ReachableUser u → ReachableUser (redeemUpdate u reward now)
  | scanned (u : UserDoc) (cname : String) (r now : Nat) :
      ReachableUser u → ReachableUser (scanUpdate u cname (randint 10 50 r) now)

/-- Concrete user fixture for witnesses. -/
def wUser : UserDoc :=
  ⟨"ST10001", "Ana", "ana@uni.edu", "password123", "A", 200, "Plata", [], 0, 0⟩

/-- Concrete reward fixture: affordable, no tier requirement. -/
def wReward : RewardDoc :=
  ⟨"Café Gratis", "1 café americano gratis", 50, "Clásico", true, "☕", "Cafetín"⟩

/-- Concrete reward fixture: too expensive for the fixture user. -/
def wRewardCostly : RewardDoc :=
  ⟨"Vale S/100 Premium", "Vale grande", 1000, "Clásico", true, "🏆", "Premium"⟩

/-- Concrete reward fixture: affordable but requiring the Oro tier. -/
def wRewardOro : RewardDoc :=
  ⟨"Vale S/20 Librería", "Vale mediano", 50, "Oro", true, "🎁", "Librería"⟩

/-- Concrete operational container fixture. -/
def wContainerOp : ContainerDoc :=
  ⟨"Contenedor A - Biblioteca", 30, 40, "operational", "Biblioteca", 0, "mixed"⟩

/-- Concrete maintenance container fixture. -/
def wContainerMaint : ContainerDoc :=
  ⟨"Contenedor C - Laboratorios", 45, 70, "maintenance", "Laboratorios", 0, "paper"⟩

/-- Concrete database fixture for witnesses. -/
def wDb : DB :=
  ⟨[(1, wUser)], [(7, wContainerOp), (8, wContainerMaint)],
   [(2, wReward), (3, wRewardCostly), (4, wRewardOro)], [], 9⟩

/-- Database whose only container has a well-formed identifier string as
its NAME while its actual id differs; used for the resolution analysis. -/
def shadowDb : DB :=
  ⟨[(1, wUser)], [(7, ⟨"42", 10, 10, "operational", "Patio", 0, "mixed"⟩)], [], [], 9⟩

/-! Helper lemmas. -/

theorem lookup_update_assoc {α : Type} (l : List (Nat × α)) (k : Nat) (v w : α)
    (h : l.lookup k = some w) : (update_assoc l k v).lookup k = some v := by
  induction l with
  | nil => simp [List.lookup] at h
  | cons p t ih =>
    obtain ⟨a, b⟩ := p
    by_cases hak : a = k
    · subst hak
      simp [update_assoc, List.lookup]
    · have hk : (k == a) = false := by
        simp [Ne.symm hak]
      simp [update_assoc, hak, List.lookup, hk] at h ⊢
      exact ih h

theorem insert_rewards_containers (rs : List RewardDoc) (db : DB) :
    (insert_rewards db rs).containers = db.containers := by
  induction rs generalizing db with
  | nil => rfl
  | cons r t ih => simpa [insert_rewards] using ih _

theorem insert_containers_length (cs : List ContainerDoc) (db : DB) :
    (insert_containers db cs).containers.length = db.containers.length + cs.length := by
  induction cs generalizing db with
  | nil => rfl
  | cons c t ih =>
    simp [insert_containers] at ih ⊢
    rw [ih]
    simp
    omega

/-! Claim theorems. -/

/-- C1: for every (non-negative, per the data model) points value,
`get_category_from_points` returns the highest tier whose threshold is ≤ p,
matches the threshold table at the boundaries 99, 100, 299, 300 and 1000,
and is non-decreasing in p with respect to the ladder order. -/
theorem categoryFromPoints_spec :
    (∀ p : Int, 0 ≤ p → highest_tier_le p = some (get_category_from_points p)) ∧
    get_category_from_points 99 = "Clásico" ∧
    get_category_from_points 100 = "Plata" ∧
    get_category_from_points 299 = "Plata" ∧
    get_category_from_points 300 = "Oro" ∧
    get_category_from_points 1000 = "Black" ∧
    (∀ p q : Int, p ≤ q →
      tier_index (get_category_from_points p) ≤ tier_index (get_category_from_points q)) := by
  refine ⟨?_, by decide, by decide, by decide, by decide, by decide, ?_⟩
  · intro p hp
    by_cases h1 : p ≥ 1000
    · simp [highest_tier_le, ladder, get_category_from_points, List.filter, h1,
        show (0 : Int) ≤ p from by omega, show (100 : Int) ≤ p from by omega,
        show (300 : Int) ≤ p from by omega, show (600 : Int) ≤ p from by omega,
        show (1000 : Int) ≤ p from by omega]
    · by_cases h2 : p ≥ 600
      · simp [highest_tier_le, ladder, get_category_from_points, List.filter, h1, h2,
          show (0 : Int) ≤ p from by omega, show (100 : Int) ≤ p from by omega,
          show (300 : Int) ≤ p from by omega, show (600 : Int) ≤ p from by omega,
          show ¬ (1000 : Int) ≤ p from by omega]
      · by_cases h3 : p ≥ 300
        · simp [highest_tier_le, ladder, get_category_from_points, List.filter, h1, h2, h3,
            show (0 : Int) ≤ p from by omega, show (100 : Int) ≤ p from by omega,
            show (300 : Int) ≤ p from by omega, show ¬ (600 : Int) ≤ p from by omega,
            show ¬ (1000 : Int) ≤ p from by omega]
        · by_cases h4 : p ≥ 100
          · simp [highest_tier_le, ladder, get_category_from_points, List.filter, h1, h2, h3, h4,
              show (0 : Int) ≤ p from by omega, show (100 : Int) ≤ p from by omega,
              show ¬ (300 : Int) ≤ p from by omega, show ¬ (600 : Int) ≤ p from by omega,
              show ¬ (1000 : Int) ≤ p from by omega]
          · simp [highest_tier_le, ladder, get_category_from_points, List.filter, h1, h2, h3, h4,
              hp, show ¬ (100 : Int) ≤ p from by omega,
              show ¬ (300 : Int) ≤ p from by omega, show ¬ (600 : Int) ≤ p from by omega,
              show ¬ (1000 : Int) ≤ p from by omega]
  · intro p q hpq
    unfold get_category_from_points
    split_ifs <;> first | decide | omega

/-- C1 witness: the spec match at a concrete input. -/
theorem categoryFromPoints_spec_witness :
    highest_tier_le 450 = some (get_category_from_points 450) ∧
    tier_index (get_category_from_points 50) ≤ tier_index (get_category_from_points 750) :=
  ⟨categoryFromPoints_spec.1 450 (by decide),
   categoryFromPoints_spec.2.2.2.2.2.2 50 750 (by decide)⟩

/-- C8: for points below each threshold, `get_next_category_info` returns
the next unmet threshold tier with pointsNeeded, currentPoints, totalPoints
and progress = points/threshold × 100; for points ≥ 1000 it returns none;
at 0 it returns Plata with pointsNeeded 100 and progress 0. -/
theorem nextCategoryInfo_spec :
    (∀ p : Int, p < 100 →
      get_next_category_info p = some ⟨"Plata", 100 - p, p, 100, ((p : ℚ) / 100) * 100⟩) ∧
    (∀ p : Int, 100 ≤ p → p < 300 →
      get_next_category_info p = some ⟨"Oro", 300 - p, p, 300, ((p : ℚ) / 300) * 100⟩) ∧
    (∀ p : Int, 300 ≤ p → p < 600 →
      get_next_category_info p = some ⟨"Diamante", 600 - p, p, 600, ((p : ℚ) / 600) * 100⟩) ∧
    (∀ p : Int, 600 ≤ p → p < 1000 →
      get_next_category_info p = some ⟨"Black", 1000 - p, p, 1000, ((p : ℚ) / 1000) * 100⟩) ∧
    (∀ p : Int, 1000 ≤ p → get_next_category_info p = none) ∧
    get_next_category_info 0 = some ⟨"Plata", 100, 0, 100, 0⟩ := by
  have part1 : ∀ p : Int, p < 100 →
      get_next_category_info p = some ⟨"Plata", 100 - p, p, 100, ((p : ℚ) / 100) * 100⟩ := by
    intro p h1
    simp [get_next_category_info, thresholds, List.find?, h1]
  refine ⟨part1, ?_, ?_, ?_, ?_, ?_⟩
  · intro p h1 h2
    simp [get_next_category_info, thresholds, List.find?, h2,
      show ¬ p < 100 from by omega]
  · intro p h1 h2
    simp [get_next_category_info, thresholds, List.find?, h2,
      show ¬ p < 100 from by omega, show ¬ p < 300 from by omega]
  · intro p h1 h2
    simp [get_next_category_info, thresholds, List.find?, h2,
      show ¬ p < 100 from by omega, show ¬ p < 300 from by omega,
      show ¬ p < 600 from by omega]
  · intro p h1
    simp [get_next_category_info, thresholds, List.find?,
      show ¬ p < 100 from by omega, show ¬ p < 300 from by omega,
      show ¬ p < 600 from by omega, show ¬ p < 1000 from by omega]
  · have h := part1 0 (by norm_num)
    simpa using h

/-- C8 witness: concrete evaluations in each regime. -/
theorem nextCategoryInfo_spec_witness :
    get_next_category_info 50 = some ⟨"Plata", 50, 50, 100, ((50 : ℚ) / 100) * 100⟩ ∧
    get_next_category_info 1200 = none :=
  ⟨nextCategoryInfo_spec.1 50 (by decide),
   nextCategoryInfo_spec.2.2.2.2.1 1200 (by decide)⟩

/-- C2: users are created with points 0 and category Clásico, and every
user document producible by the user-creating and point-changing endpoints
satisfies the denormalization invariant category = f(points). -/
theorem category_points_invariant :
    (∀ sid nm em pw av now, (mkNewUser sid nm em pw av now).points = 0 ∧
      (mkNewUser sid nm em pw av now).category = "Clásico") ∧
    (∀ u : UserDoc, ReachableUser u →
      u.category = get_category_from_points u.points) := by
  refine ⟨fun _ _ _ _ _ _ => ⟨rfl, rfl⟩, ?_⟩
  intro u h
  induction h with
  | created sid nm em pw av now => simp [mkNewUser]; decide
  | redeemed u reward now _ _ => simp [redeemUpdate]
  | scanned u cname r now _ _ => simp [scanUpdate]

/-- C2 witness: the invariant at a concrete reachable user. -/
theorem category_points_invariant_witness :
    (mkNewUser "ST1" "Ana" "a@x" "pw" "A" 0).category =
      get_category_from_points (mkNewUser "ST1" "Ana" "a@x" "pw" "A" 0).points :=
  category_points_invariant.2 _ (ReachableUser.created "ST1" "Ana" "a@x" "pw" "A" 0)

/-- C3: when the user and reward exist, the points suffice and the tier
index of the user is at least that of the reward, redeeming succeeds: the
stored user loses exactly the cost, its category is recomputed from the
new points, exactly one negative "redeemed" history entry is appended, and
the response reports the new points and category. -/
theorem redeem_reward_success (db : DB) (userId rewardId now : Nat)
    (user : UserDoc) (reward : RewardDoc) (ui ri : Nat)
    (hu : db.users.lookup userId = some user)
    (hr : db.rewards.lookup rewardId = some reward)
    (hpts : ¬ user.points < reward.pointsCost)
    (hui : cat_order.indexOf? user.category = some ui)
    (hri : cat_order.indexOf? reward.category = some ri)
    (hcat : ¬ ui < ri) :
    (redeem_reward db userId rewardId now).2 =
      .ok ⟨true, "Recompensa canjeada exitosamente", user.points - reward.pointsCost,
           get_category_from_points (user.points - reward.pointsCost)⟩ ∧
    (redeem_reward db userId rewardId now).1.users.lookup userId =
      some (redeemUpdate user reward now) ∧
    (redeemUpdate user reward now).points = user.points - reward.pointsCost ∧
    (redeemUpdate user reward now).category =
      get_category_from_points (user.points - reward.pointsCost) ∧
    (redeemUpdate user reward now).pointsHistory = user.pointsHistory ++
      [⟨now, -reward.pointsCost, "Canjeado: " ++ reward.title, "redeemed"⟩] := by
  have hmain : redeem_reward db userId rewardId now =
      ({ db with users := update_assoc db.users userId (redeemUpdate user reward now) },
       .ok ⟨true, "Recompensa canjeada exitosamente", user.points - reward.pointsCost,
            get_category_from_points (user.points - reward.pointsCost)⟩) := by
    simp [redeem_reward, hu, hr, hpts, hui, hri, hcat]
  refine ⟨by rw [hmain], ?_, rfl, rfl, rfl⟩
  rw [hmain]
  exact lookup_update_assoc db.users userId _ _ hu

/-- C3 witness: a concrete successful redemption. -/
theorem redeem_reward_success_witness :
    (redeem_reward wDb 1 2 0).2 =
      .ok ⟨true, "Recompensa canjeada exitosamente", 150, "Plata"⟩ ∧
    (redeem_reward wDb 1 2 0).1.users.lookup 1 = some (redeemUpdate wUser wReward 0) := by
  have h := redeem_reward_success wDb 1 2 0 wUser wReward 1 0 rfl rfl
    (by decide) (by decide) (by decide) (by decide)
  exact ⟨h.1, h.2.1⟩

/-- C4: redeeming fails exactly when a precondition is violated, with the
error matching the first violated precondition in the order checked by the
handler, and every failure returns the database unchanged; when no
precondition is violated (for ladder categories) the operation succeeds. -/
theorem redeem_reward_failure_iff (db : DB) (userId rewardId now : Nat) :
    (db.users.lookup userId = none →
      redeem_reward db userId rewardId now = (db, .error "Usuario no encontrado")) ∧
    (∀ user : UserDoc, db.users.lookup userId = some user →
      db.rewards.lookup rewardId = none →
      redeem_reward db userId rewardId now = (db, .error "Recompensa no encontrada")) ∧
    (∀ (user : UserDoc) (reward : RewardDoc),
      db.users.lookup userId = some user →
      db.rewards.lookup rewardId = some reward →
      user.points < reward.pointsCost →
      redeem_reward db userId rewardId now = (db, .error "Puntos insuficientes")) ∧
    (∀ (user : UserDoc) (reward : RewardDoc) (ui ri : Nat),
      db.users.lookup userId = some user →
      db.rewards.lookup rewardId = some reward →
      ¬ user.points < reward.pointsCost →
      cat_order.indexOf? user.category = some ui →
      cat_order.indexOf? reward.category = some ri →
      ui < ri →
      redeem_reward db userId rewardId now = (db, .error "Categoría insuficiente")) ∧
    (∀ (user : UserDoc) (reward : RewardDoc) (ui ri : Nat),
      db.users.lookup userId = some user →
      db.rewards.lookup rewardId = some reward →
      ¬ user.points < reward.pointsCost →
      cat_order.indexOf? user.category = some ui →
      cat_order.indexOf? reward.category = some ri →
      ¬ ui < ri →
      ∃ resp : RedeemResponse, redeem_reward db userId rewardId now =
        ({ db with users := update_assoc db.users userId (redeemUpdate user reward now) },
         .ok resp)) := by
  refine ⟨?_, ?_, ?_, ?_, ?_⟩
  · intro h
    simp [redeem_reward, h]
  · intro user hu hr
    simp [redeem_reward, hu, hr]
  · intro user reward hu hr hp
    simp [redeem_reward, hu, hr, hp]
  · intro user reward ui ri hu hr hp hui hri hc
    simp [redeem_reward, hu, hr, hp, hui, hri, hc]
  · intro user reward ui ri hu hr hp hui hri hc
    refine ⟨⟨true, "Recompensa canjeada exitosamente", user.points - reward.pointsCost,
      get_category_from_points (user.points - reward.pointsCost)⟩, ?_⟩
    simp [redeem_reward, hu, hr, hp, hui, hri, hc]

/-- C4 witness: each failure mode at a concrete input, database unchanged. -/
theorem redeem_reward_failure_iff_witness :
    redeem_reward wDb 99 2 0 = (wDb, .error "Usuario no encontrado") ∧
    redeem_reward wDb 1 99 0 = (wDb, .error "Recompensa no encontrada") ∧
    redeem_reward wDb 1 3 0 = (wDb, .error "Puntos insuficientes") ∧
    redeem_reward wDb 1 4 0 = (wDb, .error "Categoría insuficiente") := by
  have h1 := (redeem_reward_failure_iff wDb 99 2 0).1 rfl
  have h2 := (redeem_reward_failure_iff wDb 1 99 0).2.1 wUser rfl rfl
  have h3 := (redeem_reward_failure_iff wDb 1 3 0).2.2.1 wUser wRewardCostly rfl rfl (by decide)
  have h4 := (redeem_reward_failure_iff wDb 1 4 0).2.2.2.1 wUser wRewardOro 1 2 rfl rfl
    (by decide) (by decide) (by decide) (by decide)
  exact ⟨h1, h2, h3, h4⟩

/-- C5: a scan against a resolved operational container for an existing
user awards between 10 and 50 points inclusive; the user gains exactly the
earned points, recycledKg grows by exactly pointsEarned × 0.1, exactly one
positive "earned" history entry is appended and exactly one audit scan
record is persisted; the response reports the award. -/
theorem scan_qr_success (db : DB) (userId : Nat) (qr : String) (r now : Nat)
    (cid : Nat) (container : ContainerDoc) (user : UserDoc)
    (hc : resolve_container db qr = some (cid, container))
    (hop : container.status = "operational")
    (hu : db.users.lookup userId = some user) :
    10 ≤ randint 10 50 r ∧ randint 10 50 r ≤ 50 ∧
    (scan_qr db userId qr r now).2 =
      .ok ⟨true, randint 10 50 r, user.points + randint 10 50 r,
           get_category_from_points (user.points + randint 10 50 r),
           container.name, ((randint 10 50 r : Int) : ℚ) * (0.1 : ℚ)⟩ ∧
    (scan_qr db userId qr r now).1.users.lookup userId =
      some (scanUpdate user container.name (randint 10 50 r) now) ∧
    (scanUpdate user container.name (randint 10 50 r) now).points =
      user.points + randint 10 50 r ∧
    (scanUpdate user container.name (randint 10 50 r) now).recycledKg =
      user.recycledKg + ((randint 10 50 r : Int) : ℚ) * (0.1 : ℚ) ∧
    (scanUpdate user container.name (randint 10 50 r) now).pointsHistory =
      user.pointsHistory ++
        [⟨now, randint 10 50 r, "Reciclaje en " ++ container.name, "earned"⟩] ∧
    (scan_qr db userId qr r now).1.scans = db.scans ++ [⟨userId, cid, randint 10 50 r, now⟩] := by
  have hmain : scan_qr db userId qr r now =
      ({ db with
         users := update_assoc db.users userId (scanUpdate user container.name (randint 10 50 r) now)
         scans := db.scans ++ [⟨userId, cid, randint 10 50 r, now⟩] },
       .ok ⟨true, randint 10 50 r, user.points + randint 10 50 r,
            get_category_from_points (user.points + randint 10 50 r),
            container.name, ((randint 10 50 r : Int) : ℚ) * (0.1 : ℚ)⟩) := by
    simp [scan_qr, hc, hop, hu]
  refine ⟨?_, ?_, by rw [hmain], ?_, rfl, rfl, rfl, by rw [hmain]⟩
  · unfold randint
    omega
  · unfold randint
    omega
  · rw [hmain]
    exact lookup_update_assoc db.users userId _ _ hu

/-- C5 witness: a concrete successful scan. -/
theorem scan_qr_success_witness :
    10 ≤ randint 10 50 5 ∧ randint 10 50 5 ≤ 50 ∧
    (scan_qr wDb 1 "7" 5 0).1.scans = [⟨1, 7, randint 10 50 5, 0⟩] := by
  have h := scan_qr_success wDb 1 "7" 5 0 7 wContainerOp wUser rfl rfl rfl
  exact ⟨h.1, h.2.1, h.2.2.2.2.2.2.2⟩

/-- C6: a scan resolving to a non-operational container is rejected with
the maintenance error and leaves the whole database unchanged. -/
theorem scan_qr_maintenance (db : DB) (userId : Nat) (qr : String) (r now : Nat)
    (cid : Nat) (container : ContainerDoc)
    (hc : resolve_container db qr = some (cid, container))
    (hstat : container.status ≠ "operational") :
    scan_qr db userId qr r now = (db, .error "Contenedor en mantenimiento") := by
  simp [scan_qr, hc, hstat]

/-- C6 witness: scanning the concrete maintenance container. -/
theorem scan_qr_maintenance_witness :
    scan_qr wDb 1 "8" 0 0 = (wDb, .error "Contenedor en mantenimiento") :=
  scan_qr_maintenance wDb 1 "8" 0 0 8 wContainerMaint rfl (by decide)

/-- C7 counterexample: in `shadowDb` the only container is NAMED "42" (a
well-formed identifier string) but stored under id 7; scanning "42" is
rejected as container-not-found even though the name lookup would succeed,
so the scan is not rejected only when both resolutions fail. -/
theorem scan_qr_id_shadowing_counterexample :
    (shadowDb.containers.find? (fun p => p.2.name == "42")).isSome = true ∧
    scan_qr shadowDb 1 "42" 0 0 = (shadowDb, .error "Contenedor no válido") := by
  constructor
  · rfl
  · rfl

/-- C7 amended: the QR payload is resolved by first parsing it as a
container identifier; when it parses, only the id lookup is attempted (no
name fallback), and the name lookup happens exactly when the payload is
not a well-formed identifier; the scan is rejected as container-not-found
when the attempted resolution yields nothing. -/
theorem scan_qr_resolution (db : DB) (userId : Nat) (qr : String) (r now : Nat) :
    (∀ cid : Nat, parse_object_id qr = some cid →
      resolve_container db qr = (db.containers.lookup cid).map (fun c => (cid, c))) ∧
    (parse_object_id qr = none →
      resolve_container db qr = db.containers.find? (fun p => p.2.name == qr)) ∧
    (resolve_container db qr = none →
      scan_qr db userId qr r now = (db, .error "Contenedor no válido")) := by
  refine ⟨?_, ?_, ?_⟩
  · intro cid h
    simp [resolve_container, h]
  · intro h
    simp [resolve_container, h]
  · intro h
    simp [scan_qr, h]

/-- C7 witness: a payload that parses as no identifier and matches no
container name is rejected as container-not-found. -/
theorem scan_qr_resolution_witness :
    scan_qr wDb 1 "nope" 0 0 = (wDb, .error "Contenedor no válido") := by
  have h := scan_qr_resolution wDb 1 "nope" 0 0
  exact h.2.2 rfl

/-- C9: seeding is idempotent: a second init-data call returns the state of
the first call unchanged with the already-initialized message, and on any
state that already has containers the call is a no-op. -/
theorem init_data_idempotent :
    (∀ (db : DB) (n1 n2 : Nat),
      init_data (init_data db n1).1 n2 = ((init_data db n1).1, "Datos ya inicializados")) ∧
    (∀ (db : DB) (now : Nat), 0 < db.containers.length →
      init_data db now = (db, "Datos ya inicializados")) := by
  have hnoop : ∀ (db : DB) (now : Nat), 0 < db.containers.length →
      init_data db now = (db, "Datos ya inicializados") := by
    intro db now h
    simp [init_data, h]
  refine ⟨?_, hnoop⟩
  intro db n1 n2
  by_cases h : db.containers.length > 0
  · have h1 : (init_data db n1).1 = db := by
      simp [init_data, h]
    rw [h1]
    exact hnoop db n2 h
  · have h1 : (init_data db n1).1 =
        insert_rewards (insert_containers db (containers_data n1)) rewards_data := by
      simp [init_data, h]
    have hpos : 0 < (init_data db n1).1.containers.length := by
      rw [h1, insert_rewards_containers, insert_containers_length]
      simp [containers_data]
    exact hnoop _ n2 hpos

/-- C9 witness: a second call on a freshly seeded empty database is a no-op,
and a call on a state with containers is a no-op. -/
theorem init_data_idempotent_witness :
    init_data (init_data (⟨[], [], [], [], 0⟩ : DB) 0).1 0 =
      ((init_data (⟨[], [], [], [], 0⟩ : DB) 0).1, "Datos ya inicializados") ∧
    init_data wDb 0 = (wDb, "Datos ya inicializados") :=
  ⟨init_data_idempotent.1 ⟨[], [], [], [], 0⟩ 0 0,
   init_data_idempotent.2 wDb 0 (by decide)⟩

/-- C10: a rewards query whose category value is not one of the five ladder
tiers is answered with the full unfiltered reward list, exactly as when no
category is supplied. -/
theorem get_rewards_unknown_category (db : DB) (c : String) (h : c ∉ cat_order) :
    get_rewards db (some c) = get_rewards db none := by
  by_cases hc : c = ""
  · simp [get_rewards, hc]
  · simp [get_rewards, hc, h]

/-- C10 witness: an unknown tier name at a concrete database. -/
theorem get_rewards_unknown_category_witness :
    get_rewards wDb (some "Bronce") = get_rewards wDb none :=
  get_rewards_unknown_category wDb "Bronce" (by decide)

end RISIB
